import Mathlib

/-
  Verification development for the statement-of-accounts service
  (`src/app.py`).  The core under scrutiny is `prepare_sheet_data` together
  with its helpers `safe_float_conversion`, `safe_int_conversion` and
  `get_invoice_field`.  Python values are embedded as `PyVal` (floats as
  exact rationals on input, reals in the interest arithmetic), Python
  exceptions as an `Except String` layer, and the wall-clock timestamp as an
  explicit parameter.
-/

set_option maxHeartbeats 1000000

namespace StatementApp

/-- A Python runtime value as the statement-preparation code observes one:
    records are string-keyed dictionaries whose values are `None`, strings,
    ints or floats; payloads may also be lists or arbitrary other values.
    Floats are modelled as exact rationals. -/
inductive PyVal where
  | vNone
  | vStr (s : String)
  | vInt (n : ℤ)
  | vFloat (q : ℚ)
  | vDict (entries : List (String × PyVal))
  | vList (items : List PyVal)

/-- First value bound to key `k` in a dictionary's entry list.  Entry lists
    stand for Python dicts, whose keys are unique, so first-match lookup is
    exact. -/
def dictLookup (es : List (String × PyVal)) (k : String) : Option PyVal :=
  match es with
  | [] => none
  | (k', v) :: rest => if k' = k then some v else dictLookup rest k

/-- Whether the first character list occurs contiguously inside the second
    (Python's substring test `needle in hay`). -/
def charsInfix (needle : List Char) : List Char → Bool
  | [] => needle.isEmpty
  | c :: t => List.isPrefixOf needle (c :: t) || charsInfix needle t

/-- Python `k in x` for the container kinds the code can meet: key test on
    dicts, substring test on strings, element test on lists, and a
    `TypeError` on non-container values. -/
def pyContains (x : PyVal) (k : String) : Except String Bool :=
  match x with
  | .vDict es => .ok (dictLookup es k).isSome
  | .vStr s => .ok (charsInfix k.data s.data)
  | .vList items => .ok (items.any fun v => match v with | .vStr s => s = k | _ => false)
  | _ => .error "TypeError: argument is not iterable"

/-- Python `x[k]` with a string subscript: only dictionaries support it. -/
def pyIndex (x : PyVal) (k : String) : Except String PyVal :=
  match x with
  | .vDict es =>
      match dictLookup es k with
      | some v => .ok v
      | none => .error "KeyError"
  | _ => .error "TypeError: indices must be integers"

/-- Whether a value compares equal to a member of the sentinel tuple
    `(None, "")` that `get_invoice_field` treats as an absent field. -/
def isAbsent : PyVal → Bool
  | .vNone => true
  | .vStr s => s == ""
  | _ => false

/-- Embeds `get_invoice_field`: return the first of `keys` that is present
    in the record with a value other than `None`/`""`, else the default.
    Python raises `TypeError` out of `k in inv` on a non-container record;
    the embedding surfaces that in the `Except` layer. -/
def get_invoice_field (inv : PyVal) (keys : List String) (default : PyVal) :
    Except String PyVal :=
  match keys with
  | [] => .ok default
  | k :: rest =>
      match pyContains inv k with
      | .error e => .error e
      | .ok false => get_invoice_field inv rest default
      | .ok true =>
          match pyIndex inv k with
          | .error e => .error e
          | .ok v => if isAbsent v then get_invoice_field inv rest default else .ok v

/-- Removal of every occurrence of one character, Python's
    `s.replace(c, '')` for a single-character needle. -/
def removeChar (c : Char) : List Char → List Char
  | [] => []
  | x :: xs => if x = c then removeChar c xs else x :: removeChar c xs

/-- Whitespace trimming at both ends, Python's `s.strip()`. -/
def trimChars (cs : List Char) : List Char :=
  ((cs.dropWhile Char.isWhitespace).reverse.dropWhile Char.isWhitespace).reverse

/-- The string cleaning `safe_float_conversion` applies before parsing:
    drop commas and the glyphs `₹` and `$`, then strip whitespace. -/
def cleanCurrency (s : String) : List Char :=
  trimChars (removeChar '$' (removeChar '₹' (removeChar ',' s.data)))

/-- Numeric value of a string of decimal digits. -/
def digitsToNat (ds : List Char) : ℕ :=
  ds.foldl (fun a c => 10 * a + (c.toNat - 48)) 0

/-- The rational `m · 10 ^ e`, built from integer arithmetic. -/
def scaleByPow10 (m : ℤ) (e : ℤ) : ℚ :=
  if 0 ≤ e then ((m * 10 ^ e.toNat : ℤ) : ℚ) else mkRat m (10 ^ (-e).toNat)

/-- Split a leading sign character off a character list; `true` means the
    value is negated. -/
def splitSign : List Char → Bool × List Char
  | '-' :: r => (true, r)
  | '+' :: r => (false, r)
  | cs => (false, cs)

/-- Parse a non-empty run of decimal digits making up the whole list. -/
def parseUnsignedNat : List Char → Option ℕ
  | [] => none
  | cs => if cs.all Char.isDigit then some (digitsToNat cs) else none

/-- Decimal number parsing, standing in for the Python builtin `float(s)` on
    the strings the service meets: optional sign, digits with an optional
    fractional part, optional decimal exponent.  Inputs Python would also
    accept but that never arise here (`inf`, `nan`, underscore separators)
    are not modelled. -/
def parseDecimal (cs0 : List Char) : Option ℚ :=
  let (neg, cs) := splitSign cs0
  let (mantCs, rest) := cs.span (fun c => c != 'e' && c != 'E')
  let expPart : Option ℤ :=
    match rest with
    | [] => some 0
    | _ :: ecs =>
        let (eneg, eds) := splitSign ecs
        match parseUnsignedNat eds with
        | some n => some (if eneg then -(n : ℤ) else (n : ℤ))
        | none => none
  match expPart with
  | none => none
  | some expVal =>
      let (intDs, fracRest) := mantCs.span Char.isDigit
      let fracPart : Option (List Char) :=
        match fracRest with
        | [] => some []
        | '.' :: fs => if fs.all Char.isDigit then some fs else none
        | _ => none
      match fracPart with
      | none => none
      | some fracDs =>
          if intDs.isEmpty && fracDs.isEmpty then none
          else
            let v : ℚ :=
              scaleByPow10 (digitsToNat (intDs ++ fracDs) : ℤ) (expVal - fracDs.length)
            some (if neg then -v else v)

/-- Integer literal parsing, standing in for the Python builtin `int(s)`:
    optional sign followed by digits only. -/
def parseInteger (cs0 : List Char) : Option ℤ :=
  let (neg, cs) := splitSign cs0
  match parseUnsignedNat cs with
  | some n => some (if neg then -(n : ℤ) else (n : ℤ))
  | none => none

/-- Truncation toward zero, as the Python builtin `int` acts on finite
    floats (`int(-2.5)` is `-2`). -/
def pyTrunc (q : ℚ) : ℤ := Int.tdiv q.num (q.den : ℤ)

/-- Embeds `safe_float_conversion`: `None` yields the default; strings have
    commas and the glyphs `₹`/`$` removed and are trimmed before parsing;
    ints and floats convert directly; every failure (the caught
    `ValueError`/`TypeError`) yields the default. -/
def safe_float_conversion (value : PyVal) (default : ℚ) : ℚ :=
  match value with
  | .vNone => default
  | .vStr s => (parseDecimal (cleanCurrency s)).getD default
  | .vInt n => (n : ℚ)
  | .vFloat q => q
  | _ => default

/-- Embeds `safe_int_conversion`: `None` yields the default; strings are
    trimmed (only — no comma or currency removal) and parsed as integer
    literals; ints convert directly; floats truncate toward zero; every
    failure yields the default. -/
def safe_int_conversion (value : PyVal) (default : ℤ) : ℤ :=
  match value with
  | .vNone => default
  | .vStr s => (parseInteger (trimChars s.data)).getD default
  | .vInt n => n
  | .vFloat q => pyTrunc q
  | _ => default

/-- Python's `float(n)` on an int raises `OverflowError` once the correctly
    rounded result leaves double range, that is for `|n| ≥ 2^1024 − 2^970`
    (the round-half-even cut-off above the largest double); below the
    cut-off the embedding keeps the exact value, as floats do everywhere in
    this development. -/
def pyFloatOfInt (n : ℤ) : Except String ℚ :=
  if 2 ^ 1024 - 2 ^ 970 ≤ n.natAbs then
    .error "OverflowError: int too large to convert to float"
  else .ok (n : ℚ)

/-- Embeds `safe_float_conversion` with its exception behaviour made
    explicit: the handler catches only `ValueError` and `TypeError`, so the
    `OverflowError` that `float(value)` raises on a huge integer escapes to
    the caller instead of yielding the default. -/
def safe_float_conversion_checked (value : PyVal) (default : ℚ) : Except String ℚ :=
  match value with
  | .vNone => .ok default
  | .vStr s => .ok ((parseDecimal (cleanCurrency s)).getD default)
  | .vInt n => pyFloatOfInt n
  | .vFloat q => .ok q
  | _ => .ok default

/-- Decimal rendering of a rational, standing in for Python's rendering of
    the corresponding float.  Exact for values with a short finite decimal
    expansion, which are the only ones the statements display. -/
def floatRepr (q : ℚ) : String :=
  if q.den = 1 then toString q.num ++ ".0"
  else
    match (List.range 17).find? (fun k => (q * (10 : ℚ) ^ (k + 1)).den == 1) with
    | some k =>
        let n := (q * (10 : ℚ) ^ (k + 1)).num
        let sign := if q < 0 then "-" else ""
        let a := n.natAbs
        let p : ℕ := 10 ^ (k + 1)
        let fracStr := toString (a % p)
        let pad := String.mk (List.replicate (k + 1 - fracStr.length) '0')
        sign ++ toString (a / p) ++ "." ++ pad ++ fracStr
    | none => toString q

/-- Text form of a value, as the Python builtin `str` produces one for the
    kinds of values the rows carry.  The rendering of containers is
    abstracted; no statement field ever holds one. -/
def pyStr : PyVal → String
  | .vNone => "None"
  | .vStr s => s
  | .vInt n => toString n
  | .vFloat q => floatRepr q
  | .vDict _ => "<dict>"
  | .vList _ => "<list>"

/-- The 80-character separator line, Python's expression of 80 copies
    of the equals sign. -/
def sep80 : String := String.mk (List.replicate 80 '=')

/-- A spreadsheet cell as the prepared rows carry one: a text, an int or a
    float value (floats live in `ℝ` because the interest arithmetic does). -/
inductive Cell where
  | str (s : String)
  | int (n : ℤ)
  | num (x : ℝ)

/-- A row is an ordered sequence of cells. -/
abbrev Row := List Cell

/-- The summary record `prepare_sheet_data` returns.  Fields the Python dict
    carries only on one of the two return paths are `Option`-valued; `none`
    models an absent key. -/
structure Summary where
  total_balance_due : ℝ
  total_interest : ℝ
  total_balance_plus_interest : ℝ
  total_paid_amount : ℝ
  total_unused_amount : ℝ
  net_outstanding : ℝ
  status_counts : List (String × ℕ)
  invoices_count : Option ℕ
  payments_count : Option ℕ
  rows_written : Option ℕ
  error : Option String

/-- Whether a value is a Python list (`isinstance(x, list)`). -/
def isPyList : PyVal → Bool
  | .vList _ => true
  | _ => false

/-- The list a payload stands for after the `isinstance` guard: non-list
    payloads are replaced by the empty list. -/
def toPyList : PyVal → List PyVal
  | .vList l => l
  | _ => []

/-- The status label an invoice contributes to the breakdown:
    `str(...).strip() or "Unknown"` applied to the resolved field value. -/
def resolveLabel (v : PyVal) : String :=
  let t := String.mk (trimChars (pyStr v).data)
  if t = "" then "Unknown" else t

/-- One `status_counts[st] = status_counts.get(st, 0) + 1` step on an
    insertion-ordered counts list: an existing key is bumped in place, a new
    key is appended at the back (Python dict insertion order). -/
def bumpStatus (counts : List (String × ℕ)) (st : String) : List (String × ℕ) :=
  match counts with
  | [] => [(st, 1)]
  | (s, n) :: rest => if s = st then (s, n + 1) :: rest else (s, n) :: bumpStatus rest st

/-- The status-counting loop of `prepare_sheet_data`. -/
def countStatuses (invoices : List PyVal) (acc : List (String × ℕ)) :
    Except String (List (String × ℕ)) :=
  match invoices with
  | [] => .ok acc
  | inv :: rest =>
      match get_invoice_field inv ["Status", "Status"] (.vStr "Unknown") with
      | .error e => .error e
      | .ok v => countStatuses rest (bumpStatus acc (resolveLabel v))

/-- The per-invoice resolved status labels, in input order. -/
def resolveStatuses (invoices : List PyVal) : Except String (List String) :=
  match invoices with
  | [] => .ok []
  | inv :: rest =>
      match get_invoice_field inv ["Status", "Status"] (.vStr "Unknown") with
      | .error e => .error e
      | .ok v =>
          match resolveStatuses rest with
          | .error e => .error e
          | .ok tail => .ok (resolveLabel v :: tail)

/-- One of the two payment-total generator sums
    (`sum(safe_float_conversion(get_invoice_field(p, k₁, k₂, default=0)) ...)`). -/
def sumPaymentField (keys : List String) (payments : List PyVal) : Except String ℚ :=
  match payments with
  | [] => .ok 0
  | p :: rest =>
      match get_invoice_field p keys (.vInt 0) with
      | .error e => .error e
      | .ok v =>
          match sumPaymentField keys rest with
          | .error e => .error e
          | .ok s => .ok (safe_float_conversion v 0 + s)

/-- The body of the invoice loop for one record: resolved balance due,
    clamped age, interest, total balance and the emitted row.  Returns
    `(row, balance_due, interest_val, total_balance)`. -/
noncomputable def processInvoice (monthly_rate : ℚ) (inv : PyVal) :
    Except String (Row × ℚ × ℝ × ℝ) :=
  match get_invoice_field inv ["Balance Due", "Balance_Due"] (.vInt 0) with
  | .error e => .error e
  | .ok bv =>
    let balance_due := safe_float_conversion bv 0
    match get_invoice_field inv ["Age", "Age"] (.vInt 0) with
    | .error e => .error e
    | .ok av =>
      let age_days : ℤ := max (safe_int_conversion av 0) 0
      let months : ℝ := (age_days : ℝ) / 30
      let interest_val : ℝ :=
        (balance_due : ℝ) * (Real.rpow (1 + (monthly_rate : ℝ) / 100) months - 1)
      let total_balance : ℝ := (balance_due : ℝ) + interest_val
      match get_invoice_field inv ["Date Formatted", "Date_Formatted"] (.vStr "") with
      | .error e => .error e
      | .ok dv =>
        match get_invoice_field inv ["Reference Number", "Reference_Number"] (.vStr "") with
        | .error e => .error e
        | .ok rv =>
          match get_invoice_field inv ["Total Formatted", "Total_Formatted"] (.vStr "") with
          | .error e => .error e
          | .ok tv =>
            match get_invoice_field inv ["Balance Formatted", "Balance_Formatted"] (.vStr "") with
            | .error e => .error e
            | .ok blv =>
              match get_invoice_field inv ["Status", "Status"] (.vStr "") with
              | .error e => .error e
              | .ok sv =>
                match get_invoice_field inv ["Invoice ID", "Invoice_ID"] (.vStr "") with
                | .error e => .error e
                | .ok idv =>
                  .ok ([.str (pyStr dv), .str (pyStr rv), .str (pyStr tv), .str (pyStr blv),
                        .num interest_val, .num total_balance, .str (pyStr sv),
                        .str (toString age_days), .str (pyStr idv), .num (balance_due : ℝ)],
                       balance_due, interest_val, total_balance)

/-- The invoice loop: per-invoice rows in input order together with the
    accumulated balance-due, interest and total-balance sums. -/
noncomputable def processInvoices (monthly_rate : ℚ) (invoices : List PyVal) :
    Except String (List Row × ℚ × ℝ × ℝ) :=
  match invoices with
  | [] => .ok ([], 0, 0, 0)
  | inv :: rest =>
      match processInvoice monthly_rate inv with
      | .error e => .error e
      | .ok (row, bd, iv, tb) =>
          match processInvoices monthly_rate rest with
          | .error e => .error e
          | .ok (rows, bds, ivs, tbs) => .ok (row :: rows, bd + bds, iv + ivs, tb + tbs)

/-- The payment loop: one row per payment in input order. -/
noncomputable def processPayments (payments : List PyVal) : Except String (List Row) :=
  match payments with
  | [] => .ok []
  | p :: rest =>
      match get_invoice_field p ["Payment ID", "Payment_ID"] (.vStr "") with
      | .error e => .error e
      | .ok pid =>
        match get_invoice_field p ["Paid Amount", "Paid_Amount"] (.vInt 0) with
        | .error e => .error e
        | .ok pav =>
          match get_invoice_field p ["Unused Amount", "Unused_Amount"] (.vInt 0) with
          | .error e => .error e
          | .ok uav =>
            match processPayments rest with
            | .error e => .error e
            | .ok rows =>
              .ok ([.str (pyStr pid),
                    .num ((safe_float_conversion pav 0 : ℚ) : ℝ),
                    .num ((safe_float_conversion uav 0 : ℚ) : ℝ)] :: rows)

/-- The body of `prepare_sheet_data`'s `try` block: the whole preparation up
    to (but not including) the top-level exception handler.  The steps run in
    the source's evaluation order, so the first Python exception surfaces as
    the `Except.error`. -/
noncomputable def prepare_core (invoices_data payments_data : PyVal) (monthly_rate : ℚ)
    (now : String) : Except String (List Row × Summary) :=
  let invoices := toPyList invoices_data
  let payments := toPyList payments_data
  match sumPaymentField ["Paid Amount", "Paid_Amount"] payments with
  | .error e => .error e
  | .ok total_paid_amount =>
  match sumPaymentField ["Unused Amount", "Unused_Amount"] payments with
  | .error e => .error e
  | .ok total_unused_amount =>
  match countStatuses invoices [] with
  | .error e => .error e
  | .ok status_counts =>
  match processInvoices monthly_rate invoices with
  | .error e => .error e
  | .ok (invRows, total_balance_due, total_interest, total_total_balance) =>
  match processPayments payments with
  | .error e => .error e
  | .ok payRows =>
    let net_outstanding : ℚ := total_balance_due - (total_paid_amount - total_unused_amount)
    let rows : List Row :=
      [[.str "STATEMENT OF ACCOUNTS"],
       [.str ("Generated on: " ++ now)],
       [.str ("Interest rate (per month): " ++ floatRepr monthly_rate ++ "%")],
       [.str ""],
       [.str sep80],
       [.str ""],
       [.str "INVOICES SECTION"],
       [.str "Date", .str "Reference", .str "Total", .str "Balance", .str "Interest",
        .str "Total Balance", .str "Status", .str "Age", .str "Invoice ID", .str "Balance Due"]]
      ++ invRows
      ++ [[.str ""], [.str sep80], [.str ""],
          [.str "PAYMENTS SECTION"],
          [.str "Payment ID", .str "Paid Amount", .str "Unused Amount"]]
      ++ payRows
      ++ [[.str ""], [.str sep80], [.str ""],
          [.str "FINANCIAL SUMMARY"], [.str ""],
          [.str "Total Balance Due:", .num (total_balance_due : ℝ)],
          [.str "Total Interest:", .num total_interest],
          [.str "Total (Balance + Interest):", .num total_total_balance],
          [.str "Total Paid Amount:", .num (total_paid_amount : ℝ)],
          [.str "Total Unused Amount:", .num (total_unused_amount : ℝ)],
          [.str "Net Outstanding (Balance - Paid + Unused):", .num (net_outstanding : ℝ)],
          [.str ""],
          [.str "INVOICE STATUS BREAKDOWN:"]]
      ++ status_counts.map (fun sc => [.str (sc.1 ++ ":"), .int (sc.2 : ℤ)])
      ++ [[.str ""],
          [.str ("Total Invoices: " ++ toString invoices.length)],
          [.str ("Total Payments: " ++ toString payments.length)],
          [.str ("Total Records: " ++ toString (invoices.length + payments.length))],
          [.str ""],
          [.str sep80]]
    .ok (rows,
      { total_balance_due := (total_balance_due : ℝ)
        total_interest := total_interest
        total_balance_plus_interest := total_total_balance
        total_paid_amount := (total_paid_amount : ℝ)
        total_unused_amount := (total_unused_amount : ℝ)
        net_outstanding := (net_outstanding : ℝ)
        status_counts := status_counts
        invoices_count := some invoices.length
        payments_count := some payments.length
        rows_written := some rows.length
        error := none })

/-- The zeroed summary the exception handler of `prepare_sheet_data`
    returns; the three count fields are absent from its dict literal. -/
def errorSummary (e : String) : Summary :=
  { total_balance_due := 0
    total_interest := 0
    total_balance_plus_interest := 0
    total_paid_amount := 0
    total_unused_amount := 0
    net_outstanding := 0
    status_counts := []
    invoices_count := none
    payments_count := none
    rows_written := none
    error := some e }

/-- Embeds `prepare_sheet_data`: run the preparation, and convert any
    exception into the degraded `([], zeroed summary with an error field)`
    result. -/
noncomputable def prepare_sheet_data (invoices_data payments_data : PyVal) (monthly_rate : ℚ)
    (now : String) : List Row × Summary :=
  match prepare_core invoices_data payments_data monthly_rate now with
  | .ok r => r
  | .error e => ([], errorSummary e)

/-- First-seen order of the distinct elements of a list, continuing from an
    already-collected key list. -/
def firstSeenFrom (ks : List String) (ss : List String) : List String :=
  ss.foldl (fun a s => if s ∈ a then a else a ++ [s]) ks

/-- First-seen order of the distinct elements of a list. -/
def firstSeen (ss : List String) : List String := firstSeenFrom [] ss

/-- The usable binding of one key in a record: present and neither `None`
    nor the empty string. -/
def lookupUsable (es : List (String × PyVal)) (k : String) : Option PyVal :=
  match dictLookup es k with
  | some v => if isAbsent v then none else some v
  | none => none

/-! ### Basic lemmas about the embedded helpers -/

theorem toPyList_of_not_list {x : PyVal} (h : isPyList x = false) : toPyList x = [] := by
  cases x <;> simp_all [isPyList, toPyList]

/-- A dictionary record never makes `get_invoice_field` raise. -/
theorem gif_dict_ok (keys : List String) (es : List (String × PyVal)) (d : PyVal) :
    ∃ v, get_invoice_field (.vDict es) keys d = .ok v := by
  induction keys with
  | nil => exact ⟨d, rfl⟩
  | cons k rest ih =>
      simp only [get_invoice_field, pyContains, pyIndex]
      rcases hl : dictLookup es k with _ | v
      · simpa [hl] using ih
      · by_cases ha : isAbsent v
        · simpa [hl, ha] using ih
        · exact ⟨v, by simp [hl, ha]⟩

/-- When every key falls through (witnessed by the `None` default coming
    back), the result is the supplied default, whatever it is. -/
theorem gif_fallthrough {inv : PyVal} {keys : List String}
    (h : get_invoice_field inv keys .vNone = .ok .vNone) (d : PyVal) :
    get_invoice_field inv keys d = .ok d := by
  induction keys with
  | nil => rfl
  | cons k rest ih =>
      rcases hc : pyContains inv k with e | b
      · simp [get_invoice_field, hc] at h
      · cases b with
        | false =>
            simp only [get_invoice_field, hc] at h ⊢
            exact ih h
        | true =>
            rcases hi : pyIndex inv k with e | v
            · simp [get_invoice_field, hc, hi] at h
            · by_cases ha : isAbsent v
              · simp only [get_invoice_field, hc, hi, ha, if_true] at h ⊢
                exact ih h
              · simp only [get_invoice_field, hc, hi] at h ⊢
                rw [if_neg ha] at h ⊢
                injection h with h
                subst h
                simp [isAbsent] at ha

/-! ### Status tally lemmas -/

theorem bumpStatus_sum (c : List (String × ℕ)) (st : String) :
    ((bumpStatus c st).map Prod.snd).sum = ((c.map Prod.snd).sum) + 1 := by
  induction c with
  | nil => simp [bumpStatus]
  | cons hd tl ih =>
      obtain ⟨s, n⟩ := hd
      by_cases hs : s = st <;> simp [bumpStatus, hs, ih] <;> ring

theorem bumpStatus_keys (c : List (String × ℕ)) (st : String) :
    (bumpStatus c st).map Prod.fst =
      if st ∈ c.map Prod.fst then c.map Prod.fst else c.map Prod.fst ++ [st] := by
  induction c with
  | nil => simp [bumpStatus]
  | cons hd tl ih =>
      obtain ⟨s, n⟩ := hd
      by_cases hs : s = st
      · simp [bumpStatus, hs]
      · have hne : ¬ st = s := fun h => hs h.symm
        by_cases hm : st ∈ tl.map Prod.fst <;>
          simp [bumpStatus, hs, ih, hm, hne]

theorem bumpStatus_lookup (c : List (String × ℕ)) (st st' : String) :
    (bumpStatus c st).lookup st' =
      if st' = st then some (((c.lookup st).getD 0) + 1) else c.lookup st' := by
  induction c with
  | nil =>
      by_cases h : st' = st
      · subst h; simp [bumpStatus, List.lookup]
      · have hb : (st' == st) = false := beq_eq_false_iff_ne.mpr h
        simp [bumpStatus, List.lookup, h, hb]
  | cons hd tl ih =>
      obtain ⟨s, n⟩ := hd
      by_cases hs : s = st
      · subst hs
        by_cases h' : st' = s
        · subst h'; simp [bumpStatus, List.lookup]
        · have hb : (st' == s) = false := beq_eq_false_iff_ne.mpr h'
          simp [bumpStatus, List.lookup, h', hb]
      · by_cases h' : st' = s
        · subst h'
          have hne : ¬ st' = st := hs
          have hb2 : (st == st') = false := beq_eq_false_iff_ne.mpr (Ne.symm hs)
          simp [bumpStatus, Ne.symm hs, List.lookup, hne]
        · have hb : (st' == s) = false := beq_eq_false_iff_ne.mpr h'
          have hb2 : (st == s) = false := beq_eq_false_iff_ne.mpr (Ne.symm hs)
          simp [bumpStatus, hs, List.lookup, hb, hb2, ih]

theorem tally_keys (ss : List String) (acc : List (String × ℕ)) :
    (ss.foldl bumpStatus acc).map Prod.fst = firstSeenFrom (acc.map Prod.fst) ss := by
  induction ss generalizing acc with
  | nil => rfl
  | cons s rest ih =>
      simp only [List.foldl_cons, firstSeenFrom, ih, bumpStatus_keys]

theorem tally_sum (ss : List String) (acc : List (String × ℕ)) :
    ((ss.foldl bumpStatus acc).map Prod.snd).sum = (acc.map Prod.snd).sum + ss.length := by
  induction ss generalizing acc with
  | nil => simp
  | cons s rest ih =>
      simp only [List.foldl_cons, ih, bumpStatus_sum, List.length_cons]
      ring

theorem tally_lookup (ss : List String) (acc : List (String × ℕ)) (st : String) :
    (ss.foldl bumpStatus acc).lookup st =
      if st ∈ ss ∨ (acc.lookup st).isSome then
        some ((acc.lookup st).getD 0 + ss.count st) else none := by
  induction ss generalizing acc with
  | nil =>
      rcases h : acc.lookup st with _ | v <;> simp [h]
  | cons s rest ih =>
      rw [List.foldl_cons, ih, bumpStatus_lookup]
      by_cases hs : st = s
      · subst hs
        rw [if_pos rfl]
        have hcnt : (st :: rest).count st = rest.count st + 1 := by
          simp
        simp only [Option.isSome_some, or_true, if_true, Option.getD_some, hcnt,
          List.mem_cons, true_or]
        congr 1
        omega
      · rw [if_neg hs]
        have hcnt : (s :: rest).count st = rest.count st := by
          simp [List.count_cons, beq_eq_false_iff_ne.mpr (Ne.symm hs)]
        simp only [hcnt, List.mem_cons, hs, false_or]

theorem countStatuses_ok {l : List PyVal} {acc sc : List (String × ℕ)}
    (h : countStatuses l acc = .ok sc) :
    ∃ ss, resolveStatuses l = .ok ss ∧ sc = ss.foldl bumpStatus acc := by
  induction l generalizing acc with
  | nil =>
      refine ⟨[], rfl, ?_⟩
      simpa [countStatuses] using h.symm
  | cons inv rest ih =>
      simp only [countStatuses] at h
      rcases hg : get_invoice_field inv ["Status", "Status"] (.vStr "Unknown") with e | v
      · rw [hg] at h; cases h
      · rw [hg] at h
        obtain ⟨ss, hss, hsc⟩ := ih h
        exact ⟨resolveLabel v :: ss, by simp [resolveStatuses, hg, hss], by simp [hsc]⟩

/-- A successful resolved-status list has the length of the invoice list. -/
theorem resolveStatuses_length {l : List PyVal} {ss : List String}
    (h : resolveStatuses l = .ok ss) : ss.length = l.length := by
  induction l generalizing ss with
  | nil => simp [resolveStatuses] at h; simp [h.symm]
  | cons inv rest ih =>
      simp only [resolveStatuses] at h
      rcases hg : get_invoice_field inv ["Status", "Status"] (.vStr "Unknown") with e | v
      · rw [hg] at h; cases h
      · rw [hg] at h
        rcases hr : resolveStatuses rest with e | tail
        · rw [hr] at h; cases h
        · rw [hr] at h
          injection h with h
          subst h
          simp [ih hr]

/-! ### Inversion lemmas for the invoice, payment and core pipelines -/

theorem processInvoice_ok_inv {r : ℚ} {inv : PyVal} {row : Row} {bd : ℚ} {iv tb : ℝ}
    (h : processInvoice r inv = .ok (row, bd, iv, tb)) :
    ∃ bv av dv rv tv blv sv idv,
      get_invoice_field inv ["Balance Due", "Balance_Due"] (.vInt 0) = .ok bv ∧
      get_invoice_field inv ["Age", "Age"] (.vInt 0) = .ok av ∧
      get_invoice_field inv ["Date Formatted", "Date_Formatted"] (.vStr "") = .ok dv ∧
      get_invoice_field inv ["Reference Number", "Reference_Number"] (.vStr "") = .ok rv ∧
      get_invoice_field inv ["Total Formatted", "Total_Formatted"] (.vStr "") = .ok tv ∧
      get_invoice_field inv ["Balance Formatted", "Balance_Formatted"] (.vStr "") = .ok blv ∧
      get_invoice_field inv ["Status", "Status"] (.vStr "") = .ok sv ∧
      get_invoice_field inv ["Invoice ID", "Invoice_ID"] (.vStr "") = .ok idv ∧
      bd = safe_float_conversion bv 0 ∧
      iv = (bd : ℝ) *
        (Real.rpow (1 + (r : ℝ) / 100) (((max (safe_int_conversion av 0) 0 : ℤ) : ℝ) / 30) - 1) ∧
      tb = (bd : ℝ) + iv ∧
      row = [.str (pyStr dv), .str (pyStr rv), .str (pyStr tv), .str (pyStr blv),
             .num iv, .num tb, .str (pyStr sv),
             .str (toString (max (safe_int_conversion av 0) 0)), .str (pyStr idv),
             .num (bd : ℝ)] := by
  simp only [processInvoice] at h
  rcases h1 : get_invoice_field inv ["Balance Due", "Balance_Due"] (.vInt 0) with e | bv <;>
    simp only [h1] at h
  case error => exact Except.noConfusion h
  rcases h2 : get_invoice_field inv ["Age", "Age"] (.vInt 0) with e | av <;>
    simp only [h2] at h
  case error => exact Except.noConfusion h
  rcases h3 : get_invoice_field inv ["Date Formatted", "Date_Formatted"] (.vStr "") with e | dv <;>
    simp only [h3] at h
  case error => exact Except.noConfusion h
  rcases h4 : get_invoice_field inv ["Reference Number", "Reference_Number"] (.vStr "")
    with e | rv <;> simp only [h4] at h
  case error => exact Except.noConfusion h
  rcases h5 : get_invoice_field inv ["Total Formatted", "Total_Formatted"] (.vStr "")
    with e | tv <;> simp only [h5] at h
  case error => exact Except.noConfusion h
  rcases h6 : get_invoice_field inv ["Balance Formatted", "Balance_Formatted"] (.vStr "")
    with e | blv <;> simp only [h6] at h
  case error => exact Except.noConfusion h
  rcases h7 : get_invoice_field inv ["Status", "Status"] (.vStr "") with e | sv <;>
    simp only [h7] at h
  case error => exact Except.noConfusion h
  rcases h8 : get_invoice_field inv ["Invoice ID", "Invoice_ID"] (.vStr "") with e | idv <;>
    simp only [h8, Except.ok.injEq, Prod.mk.injEq] at h
  case error => exact Except.noConfusion h
  obtain ⟨hrow, hbd, hiv, htb⟩ := h
  subst hrow
  subst hbd
  subst hiv
  subst htb
  exact ⟨bv, av, dv, rv, tv, blv, sv, idv, rfl, rfl, rfl, rfl, rfl, rfl, rfl, rfl,
    rfl, rfl, rfl, rfl⟩

theorem processInvoices_length {r : ℚ} {l : List PyVal} {res : List Row × ℚ × ℝ × ℝ}
    (h : processInvoices r l = .ok res) : res.1.length = l.length := by
  induction l generalizing res with
  | nil =>
      simp only [processInvoices, Except.ok.injEq] at h
      subst h
      rfl
  | cons inv rest ih =>
      simp only [processInvoices] at h
      rcases hp : processInvoice r inv with e | tup <;> simp only [hp] at h
      case error => exact Except.noConfusion h
      obtain ⟨row, bd, iv, tb⟩ := tup
      rcases hps : processInvoices r rest with e | tups <;> simp only [hps] at h
      case error => exact Except.noConfusion h
      obtain ⟨rows, bds, ivs, tbs⟩ := tups
      simp only [Except.ok.injEq] at h
      subst h
      simp [ih hps]

theorem processInvoices_get {r : ℚ} {l : List PyVal} {res : List Row × ℚ × ℝ × ℝ}
    (h : processInvoices r l = .ok res) :
    ∀ n (h1 : n < l.length) (h2 : n < res.1.length),
      ∃ bd iv tb, processInvoice r (l.get ⟨n, h1⟩) = .ok (res.1.get ⟨n, h2⟩, bd, iv, tb) := by
  induction l generalizing res with
  | nil => intro n h1; simp at h1
  | cons inv rest ih =>
      simp only [processInvoices] at h
      rcases hp : processInvoice r inv with e | tup <;> simp only [hp] at h
      case error => exact Except.noConfusion h
      obtain ⟨row, bd, iv, tb⟩ := tup
      rcases hps : processInvoices r rest with e | tups <;> simp only [hps] at h
      case error => exact Except.noConfusion h
      obtain ⟨rows, bds, ivs, tbs⟩ := tups
      simp only [Except.ok.injEq] at h
      subst h
      intro n h1 h2
      cases n with
      | zero => exact ⟨bd, iv, tb, hp⟩
      | succ m =>
          have hm : m < rest.length := by simpa using h1
          have hm2 : m < rows.length := by simpa using h2
          obtain ⟨bd2, iv2, tb2, hg⟩ := ih hps m hm hm2
          exact ⟨bd2, iv2, tb2, hg⟩

theorem processPayments_length {l : List PyVal} {rows : List Row}
    (h : processPayments l = .ok rows) : rows.length = l.length := by
  induction l generalizing rows with
  | nil =>
      simp only [processPayments, Except.ok.injEq] at h
      subst h
      rfl
  | cons p rest ih =>
      simp only [processPayments] at h
      rcases h1 : get_invoice_field p ["Payment ID", "Payment_ID"] (.vStr "") with e | pid <;>
        simp only [h1] at h
      case error => exact Except.noConfusion h
      rcases h2 : get_invoice_field p ["Paid Amount", "Paid_Amount"] (.vInt 0) with e | pav <;>
        simp only [h2] at h
      case error => exact Except.noConfusion h
      rcases h3 : get_invoice_field p ["Unused Amount", "Unused_Amount"] (.vInt 0) with e | uav <;>
        simp only [h3] at h
      case error => exact Except.noConfusion h
      rcases h4 : processPayments rest with e | tl <;> simp only [h4, Except.ok.injEq] at h
      case error => exact Except.noConfusion h
      subst h
      simp [ih h4]

theorem processPayments_get {l : List PyVal} {rows : List Row}
    (h : processPayments l = .ok rows) :
    ∀ n (h1 : n < l.length) (h2 : n < rows.length),
      ∃ pid pav uav,
        get_invoice_field (l.get ⟨n, h1⟩) ["Payment ID", "Payment_ID"] (.vStr "") = .ok pid ∧
        get_invoice_field (l.get ⟨n, h1⟩) ["Paid Amount", "Paid_Amount"] (.vInt 0) = .ok pav ∧
        get_invoice_field (l.get ⟨n, h1⟩) ["Unused Amount", "Unused_Amount"] (.vInt 0) = .ok uav ∧
        rows.get ⟨n, h2⟩ = [.str (pyStr pid),
          .num ((safe_float_conversion pav 0 : ℚ) : ℝ),
          .num ((safe_float_conversion uav 0 : ℚ) : ℝ)] := by
  induction l generalizing rows with
  | nil => intro n h1; simp at h1
  | cons p rest ih =>
      simp only [processPayments] at h
      rcases h1 : get_invoice_field p ["Payment ID", "Payment_ID"] (.vStr "") with e | pid <;>
        simp only [h1] at h
      case error => exact Except.noConfusion h
      rcases h2 : get_invoice_field p ["Paid Amount", "Paid_Amount"] (.vInt 0) with e | pav <;>
        simp only [h2] at h
      case error => exact Except.noConfusion h
      rcases h3 : get_invoice_field p ["Unused Amount", "Unused_Amount"] (.vInt 0) with e | uav <;>
        simp only [h3] at h
      case error => exact Except.noConfusion h
      rcases h4 : processPayments rest with e | tl <;> simp only [h4, Except.ok.injEq] at h
      case error => exact Except.noConfusion h
      subst h
      intro n hn1 hn2
      cases n with
      | zero => exact ⟨pid, pav, uav, h1, h2, h3, rfl⟩
      | succ m =>
          have hm : m < rest.length := by simpa using hn1
          have hm2 : m < tl.length := by simpa using hn2
          obtain ⟨pid2, pav2, uav2, hg1, hg2, hg3, hg4⟩ := ih h4 m hm hm2
          exact ⟨pid2, pav2, uav2, hg1, hg2, hg3, hg4⟩

/-- Everything a successful run of the preparation pipeline determines: the
    five stage results, the assembled row sequence, and the summary record. -/
theorem prepare_core_ok_inv {i p : PyVal} {r : ℚ} {now : String} {rows : List Row} {s : Summary}
    (h : prepare_core i p r now = .ok (rows, s)) :
    ∃ paid unused sc invRows tbd ti tt payRows,
      sumPaymentField ["Paid Amount", "Paid_Amount"] (toPyList p) = .ok paid ∧
      sumPaymentField ["Unused Amount", "Unused_Amount"] (toPyList p) = .ok unused ∧
      countStatuses (toPyList i) [] = .ok sc ∧
      processInvoices r (toPyList i) = .ok (invRows, tbd, ti, tt) ∧
      processPayments (toPyList p) = .ok payRows ∧
      rows =
        ([[.str "STATEMENT OF ACCOUNTS"],
          [.str ("Generated on: " ++ now)],
          [.str ("Interest rate (per month): " ++ floatRepr r ++ "%")],
          [.str ""],
          [.str sep80],
          [.str ""],
          [.str "INVOICES SECTION"],
          [.str "Date", .str "Reference", .str "Total", .str "Balance", .str "Interest",
           .str "Total Balance", .str "Status", .str "Age", .str "Invoice ID",
           .str "Balance Due"]]
         ++ invRows
         ++ [[.str ""], [.str sep80], [.str ""],
             [.str "PAYMENTS SECTION"],
             [.str "Payment ID", .str "Paid Amount", .str "Unused Amount"]]
         ++ payRows
         ++ [[.str ""], [.str sep80], [.str ""],
             [.str "FINANCIAL SUMMARY"], [.str ""],
             [.str "Total Balance Due:", .num (tbd : ℝ)],
             [.str "Total Interest:", .num ti],
             [.str "Total (Balance + Interest):", .num tt],
             [.str "Total Paid Amount:", .num (paid : ℝ)],
             [.str "Total Unused Amount:", .num (unused : ℝ)],
             [.str "Net Outstanding (Balance - Paid + Unused):",
              .num ((tbd - (paid - unused) : ℚ) : ℝ)],
             [.str ""],
             [.str "INVOICE STATUS BREAKDOWN:"]]
         ++ sc.map (fun c => [.str (c.1 ++ ":"), .int (c.2 : ℤ)])
         ++ [[.str ""],
             [.str ("Total Invoices: " ++ toString (toPyList i).length)],
             [.str ("Total Payments: " ++ toString (toPyList p).length)],
             [.str ("Total Records: " ++ toString ((toPyList i).length + (toPyList p).length))],
             [.str ""],
             [.str sep80]]) ∧
      s = { total_balance_due := (tbd : ℝ)
            total_interest := ti
            total_balance_plus_interest := tt
            total_paid_amount := (paid : ℝ)
            total_unused_amount := (unused : ℝ)
            net_outstanding := ((tbd - (paid - unused) : ℚ) : ℝ)
            status_counts := sc
            invoices_count := some (toPyList i).length
            payments_count := some (toPyList p).length
            rows_written := some rows.length
            error := none } := by
  simp only [prepare_core] at h
  rcases h1 : sumPaymentField ["Paid Amount", "Paid_Amount"] (toPyList p) with e | paid <;>
    simp only [h1] at h
  case error => exact Except.noConfusion h
  rcases h2 : sumPaymentField ["Unused Amount", "Unused_Amount"] (toPyList p) with e | unused <;>
    simp only [h2] at h
  case error => exact Except.noConfusion h
  rcases h3 : countStatuses (toPyList i) [] with e | sc <;> simp only [h3] at h
  case error => exact Except.noConfusion h
  rcases h4 : processInvoices r (toPyList i) with e | tups <;> simp only [h4] at h
  case error => exact Except.noConfusion h
  obtain ⟨invRows, tbd, ti, tt⟩ := tups
  rcases h5 : processPayments (toPyList p) with e | payRows <;> simp only [h5] at h
  case error => exact Except.noConfusion h
  simp only [Except.ok.injEq, Prod.mk.injEq] at h
  obtain ⟨hrows, hs⟩ := h
  subst hrows
  subst hs
  exact ⟨paid, unused, sc, invRows, tbd, ti, tt, payRows, rfl, rfl, rfl, rfl, rfl, rfl, rfl⟩

theorem prepare_sheet_data_of_core_ok {i p : PyVal} {r : ℚ} {now : String}
    {rows : List Row} {s : Summary} (h : prepare_core i p r now = .ok (rows, s)) :
    prepare_sheet_data i p r now = (rows, s) := by
  simp [prepare_sheet_data, h]

theorem prepare_sheet_data_of_core_error {i p : PyVal} {r : ℚ} {now : String} {e : String}
    (h : prepare_core i p r now = .error e) :
    prepare_sheet_data i p r now = ([], errorSummary e) := by
  simp [prepare_sheet_data, h]

/-- A summary without an error field can only come from a successful core
    run, whose result the returned pair is. -/
theorem core_ok_of_error_none {i p : PyVal} {r : ℚ} {now : String}
    (h : (prepare_sheet_data i p r now).2.error = none) :
    prepare_core i p r now =
      .ok ((prepare_sheet_data i p r now).1, (prepare_sheet_data i p r now).2) := by
  rcases hc : prepare_core i p r now with e | rs
  · rw [prepare_sheet_data_of_core_error hc] at h
    simp [errorSummary] at h
  · obtain ⟨rows, s⟩ := rs
    rw [prepare_sheet_data_of_core_ok hc]

/-! ### Claim theorems -/

/-- C3, counterexample: the claim says `safe_int_conversion` also removes
    comma digit-group separators before parsing, so `"1,234"` would coerce
    to `1234`; in the code it only strips whitespace, the parse fails, and
    the default (here `0`) comes back instead. -/
theorem C3_counterexample :
    safe_int_conversion (.vStr "1,234") 0 = 0 ∧ (0 : ℤ) ≠ 1234 := by
  constructor
  · decide
  · decide

/-- C3 (amended): `safe_float_conversion` strips whitespace and removes
    commas and the glyphs `₹`/`$` before parsing, while
    `safe_int_conversion` only strips whitespace (no comma or currency
    removal); both return the caller-supplied default on any parse failure.
    In particular `"₹1,234.50"` coerces to the float `1234.5`, `"abc"`
    coerces to the supplied default, and `"1,234"` fails integer coercion. -/
theorem C3_string_coercion :
    (∀ d : ℚ, safe_float_conversion (.vStr "₹1,234.50") d = 1234.5) ∧
    (∀ d : ℚ, safe_float_conversion (.vStr "abc") d = d) ∧
    (∀ d : ℤ, safe_int_conversion (.vStr "abc") d = d) ∧
    (∀ (s : String) (d : ℚ),
      safe_float_conversion (.vStr s) d = (parseDecimal (cleanCurrency s)).getD d) ∧
    (∀ (s : String) (d : ℤ),
      safe_int_conversion (.vStr s) d = (parseInteger (trimChars s.data)).getD d) ∧
    (∀ d : ℤ, safe_int_conversion (.vStr "1,234") d = d) := by
  refine ⟨?_, ?_, ?_, ?_, ?_, ?_⟩
  · intro d
    have hp : parseDecimal (cleanCurrency "₹1,234.50") = some (mkRat 2469 2) := by decide
    rw [safe_float_conversion, hp, Option.getD_some, Rat.mkRat_eq_divInt, Rat.divInt_eq_div]
    norm_num
  · intro d
    have hp : parseDecimal (cleanCurrency "abc") = none := by decide
    rw [safe_float_conversion, hp, Option.getD_none]
  · intro d
    have hp : parseInteger (trimChars "abc".data) = none := by decide
    rw [safe_int_conversion, hp, Option.getD_none]
  · intro s d
    rfl
  · intro s d
    rfl
  · intro d
    have hp : parseInteger (trimChars "1,234".data) = none := by decide
    rw [safe_int_conversion, hp, Option.getD_none]

/-- C8 (code bug): the conversions are not total over arbitrary input.  The
    handler in `safe_float_conversion` catches only `ValueError` and
    `TypeError`, so the `OverflowError` that `float` raises on an integer of
    magnitude at least `2^1024 − 2^970` escapes instead of yielding the
    default — `10^400` is such an input.  On every other input the checked
    conversion returns exactly the value of the total idealisation
    `safe_float_conversion` used by the rest of the pipeline. -/
theorem C8_overflow_escapes :
    safe_float_conversion_checked (.vInt (10 ^ 400)) 0 =
      .error "OverflowError: int too large to convert to float" ∧
    (∀ (v : PyVal) (d : ℚ),
      safe_float_conversion_checked v d = .ok (safe_float_conversion v d) ∨
      ∃ n, v = .vInt n ∧ 2 ^ 1024 - 2 ^ 970 ≤ n.natAbs ∧
        safe_float_conversion_checked v d =
          .error "OverflowError: int too large to convert to float") := by
  constructor
  · have hle : 2 ^ 1024 - 2 ^ 970 ≤ ((10 : ℤ) ^ 400).natAbs := by
      have habs : ((10 : ℤ) ^ 400).natAbs = 10 ^ 400 := by
        rw [Int.natAbs_pow]
        norm_num
      rw [habs]
      norm_num
    simp [safe_float_conversion_checked, pyFloatOfInt, hle]
  · intro v d
    cases v with
    | vNone => exact Or.inl rfl
    | vStr s => exact Or.inl rfl
    | vInt n =>
        by_cases hn : 2 ^ 1024 - 2 ^ 970 ≤ n.natAbs
        · exact Or.inr ⟨n, rfl, hn,
            by simp [safe_float_conversion_checked, pyFloatOfInt, hn]⟩
        · exact Or.inl
            (by simp [safe_float_conversion_checked, pyFloatOfInt, hn, safe_float_conversion])
    | vFloat q => exact Or.inl rfl
    | vDict es => exact Or.inl rfl
    | vList l => exact Or.inl rfl

/-- C9: when neither payload is a list, both are treated as empty
    collections: the summary has no error field, both counts are zero, the
    status breakdown is empty and every total is zero. -/
theorem C9_nonlist_inputs (i p : PyVal) (r : ℚ) (now : String)
    (hi : isPyList i = false) (hp : isPyList p = false) :
    (prepare_sheet_data i p r now).2.error = none ∧
    (prepare_sheet_data i p r now).2.invoices_count = some 0 ∧
    (prepare_sheet_data i p r now).2.payments_count = some 0 ∧
    (prepare_sheet_data i p r now).2.status_counts = [] ∧
    (prepare_sheet_data i p r now).2.total_balance_due = 0 ∧
    (prepare_sheet_data i p r now).2.total_interest = 0 ∧
    (prepare_sheet_data i p r now).2.total_balance_plus_interest = 0 ∧
    (prepare_sheet_data i p r now).2.total_paid_amount = 0 ∧
    (prepare_sheet_data i p r now).2.total_unused_amount = 0 ∧
    (prepare_sheet_data i p r now).2.net_outstanding = 0 := by
  have hti := toPyList_of_not_list hi
  have htp := toPyList_of_not_list hp
  refine ⟨?_, ?_, ?_, ?_, ?_, ?_, ?_, ?_, ?_, ?_⟩ <;>
    simp [prepare_sheet_data, prepare_core, hti, htp, sumPaymentField, countStatuses,
      processInvoices, processPayments]

/-- C9 witness: the null payloads. -/
theorem C9_witness :
    isPyList PyVal.vNone = false ∧
    ((prepare_sheet_data .vNone .vNone 1 "T").2.error = none ∧
     (prepare_sheet_data .vNone .vNone 1 "T").2.invoices_count = some 0 ∧
     (prepare_sheet_data .vNone .vNone 1 "T").2.payments_count = some 0 ∧
     (prepare_sheet_data .vNone .vNone 1 "T").2.status_counts = [] ∧
     (prepare_sheet_data .vNone .vNone 1 "T").2.total_balance_due = 0 ∧
     (prepare_sheet_data .vNone .vNone 1 "T").2.total_interest = 0 ∧
     (prepare_sheet_data .vNone .vNone 1 "T").2.total_balance_plus_interest = 0 ∧
     (prepare_sheet_data .vNone .vNone 1 "T").2.total_paid_amount = 0 ∧
     (prepare_sheet_data .vNone .vNone 1 "T").2.total_unused_amount = 0 ∧
     (prepare_sheet_data .vNone .vNone 1 "T").2.net_outstanding = 0) :=
  ⟨rfl, C9_nonlist_inputs .vNone .vNone 1 "T" rfl rfl⟩

/-- C5: whenever the preparation ends with an error annotation, the result
    is the degraded-but-valid pair: empty row sequence, zeroed totals, empty
    status breakdown, and the error field carrying the failure description
    of the exception the core raised. -/
theorem C5_degraded_on_error (i p : PyVal) (r : ℚ) (now : String)
    (h : ((prepare_sheet_data i p r now).2.error).isSome = true) :
    (prepare_sheet_data i p r now).1 = [] ∧
    (prepare_sheet_data i p r now).2.total_balance_due = 0 ∧
    (prepare_sheet_data i p r now).2.total_interest = 0 ∧
    (prepare_sheet_data i p r now).2.total_balance_plus_interest = 0 ∧
    (prepare_sheet_data i p r now).2.total_paid_amount = 0 ∧
    (prepare_sheet_data i p r now).2.total_unused_amount = 0 ∧
    (prepare_sheet_data i p r now).2.net_outstanding = 0 ∧
    (prepare_sheet_data i p r now).2.status_counts = [] ∧
    ∃ e, prepare_core i p r now = .error e ∧
      (prepare_sheet_data i p r now).2.error = some e := by
  rcases hc : prepare_core i p r now with e | rs
  · rw [prepare_sheet_data_of_core_error hc]
    exact ⟨rfl, rfl, rfl, rfl, rfl, rfl, rfl, rfl, e, rfl, rfl⟩
  · obtain ⟨rows, s⟩ := rs
    rw [prepare_sheet_data_of_core_ok hc] at h
    obtain ⟨paid, unused, sc, invRows, tbd, ti, tt, payRows, _, _, _, _, _, _, hs⟩ :=
      prepare_core_ok_inv hc
    rw [hs] at h
    simp at h

/-- C5 witness: a non-record invoice entry makes the status loop raise a
    `TypeError`, which the top-level handler converts. -/
theorem C5_witness :
    ((prepare_sheet_data (.vList [.vInt 0]) (.vList []) 1 "T").2.error).isSome = true ∧
    ((prepare_sheet_data (.vList [.vInt 0]) (.vList []) 1 "T").1 = [] ∧
     (prepare_sheet_data (.vList [.vInt 0]) (.vList []) 1 "T").2.total_balance_due = 0 ∧
     (prepare_sheet_data (.vList [.vInt 0]) (.vList []) 1 "T").2.total_interest = 0 ∧
     (prepare_sheet_data (.vList [.vInt 0]) (.vList []) 1 "T").2.total_balance_plus_interest = 0 ∧
     (prepare_sheet_data (.vList [.vInt 0]) (.vList []) 1 "T").2.total_paid_amount = 0 ∧
     (prepare_sheet_data (.vList [.vInt 0]) (.vList []) 1 "T").2.total_unused_amount = 0 ∧
     (prepare_sheet_data (.vList [.vInt 0]) (.vList []) 1 "T").2.net_outstanding = 0 ∧
     (prepare_sheet_data (.vList [.vInt 0]) (.vList []) 1 "T").2.status_counts = [] ∧
     ∃ e, prepare_core (.vList [.vInt 0]) (.vList []) 1 "T" = .error e ∧
       (prepare_sheet_data (.vList [.vInt 0]) (.vList []) 1 "T").2.error = some e) :=
  ⟨rfl, C5_degraded_on_error (.vList [.vInt 0]) (.vList []) 1 "T" rfl⟩

/-- C4, counterexample: a failure-path summary lacks `rows_written`,
    `invoices_count` and `payments_count`, so it does not contain all the
    fields the claim lists for every input. -/
theorem C4_counterexample :
    (prepare_sheet_data (.vList [.vInt 0]) (.vList []) 1 "T").2.rows_written = none ∧
    (prepare_sheet_data (.vList [.vInt 0]) (.vList []) 1 "T").2.invoices_count = none ∧
    (prepare_sheet_data (.vList [.vInt 0]) (.vList []) 1 "T").2.payments_count = none ∧
    ((prepare_sheet_data (.vList [.vInt 0]) (.vList []) 1 "T").2.error).isSome = true :=
  ⟨rfl, rfl, rfl, rfl⟩

/-- C4 (amended): on the success path the summary carries all of the listed
    fields — `rows_written` equal to the emitted row count and the two input
    counts — and no error; on the failure path the six totals, the status
    mapping and the error field are present but `rows_written`,
    `invoices_count` and `payments_count` are absent. -/
theorem C4_summary_fields (i p : PyVal) (r : ℚ) (now : String) :
    ((prepare_sheet_data i p r now).2.error = none →
      (prepare_sheet_data i p r now).2.rows_written =
        some (prepare_sheet_data i p r now).1.length ∧
      (prepare_sheet_data i p r now).2.invoices_count = some (toPyList i).length ∧
      (prepare_sheet_data i p r now).2.payments_count = some (toPyList p).length) ∧
    ((prepare_sheet_data i p r now).2.error ≠ none →
      (prepare_sheet_data i p r now).2.rows_written = none ∧
      (prepare_sheet_data i p r now).2.invoices_count = none ∧
      (prepare_sheet_data i p r now).2.payments_count = none) := by
  rcases hc : prepare_core i p r now with e | rs
  · rw [prepare_sheet_data_of_core_error hc]
    constructor
    · intro h
      simp [errorSummary] at h
    · intro _
      exact ⟨rfl, rfl, rfl⟩
  · obtain ⟨rows, s⟩ := rs
    rw [prepare_sheet_data_of_core_ok hc]
    obtain ⟨paid, unused, sc, invRows, tbd, ti, tt, payRows, _, _, _, _, _, _, hs⟩ :=
      prepare_core_ok_inv hc
    subst hs
    constructor
    · intro _
      exact ⟨rfl, rfl, rfl⟩
    · intro h
      simp at h

/-- C4 witness: a successful run shows the success-path fields. -/
theorem C4_witness :
    (prepare_sheet_data (.vList []) (.vList []) 1 "T").2.error = none ∧
    ((prepare_sheet_data (.vList []) (.vList []) 1 "T").2.rows_written =
       some (prepare_sheet_data (.vList []) (.vList []) 1 "T").1.length ∧
     (prepare_sheet_data (.vList []) (.vList []) 1 "T").2.invoices_count =
       some (toPyList (.vList [])).length ∧
     (prepare_sheet_data (.vList []) (.vList []) 1 "T").2.payments_count =
       some (toPyList (.vList [])).length) :=
  ⟨rfl, (C4_summary_fields (.vList []) (.vList []) 1 "T").1 rfl⟩

/-! ### Helpers for the single-invoice interest evaluation -/

theorem sf_absent {v : PyVal} (h : isAbsent v = true) (d : ℚ) :
    safe_float_conversion v d = d := by
  cases v with
  | vNone => rfl
  | vStr s =>
      have hs : s = "" := by simpa [isAbsent] using h
      subst hs
      have hp : parseDecimal (cleanCurrency "") = none := by decide
      simp [safe_float_conversion, hp]
  | vInt n => simp [isAbsent] at h
  | vFloat q => simp [isAbsent] at h
  | vDict es => simp [isAbsent] at h
  | vList l => simp [isAbsent] at h

theorem si_absent {v : PyVal} (h : isAbsent v = true) (d : ℤ) :
    safe_int_conversion v d = d := by
  cases v with
  | vNone => rfl
  | vStr s =>
      have hs : s = "" := by simpa [isAbsent] using h
      subst hs
      have hp : parseInteger (trimChars "".data) = none := by decide
      simp [safe_int_conversion, hp]
  | vInt n => simp [isAbsent] at h
  | vFloat q => simp [isAbsent] at h
  | vDict es => simp [isAbsent] at h
  | vList l => simp [isAbsent] at h

/-- Field resolution on the two-entry record used for the interest claims:
    the balance field resolves to the stored value unless it is absent, in
    which case the default `0` comes back. -/
theorem gif_pair_balance (bv av : PyVal) :
    get_invoice_field (.vDict [("Balance Due", bv), ("Age", av)])
      ["Balance Due", "Balance_Due"] (.vInt 0) =
      .ok (if isAbsent bv then .vInt 0 else bv) := by
  by_cases hb : isAbsent bv <;>
    simp [get_invoice_field, pyContains, pyIndex, dictLookup, hb]

theorem gif_pair_age (bv av : PyVal) :
    get_invoice_field (.vDict [("Balance Due", bv), ("Age", av)])
      ["Age", "Age"] (.vInt 0) =
      .ok (if isAbsent av then .vInt 0 else av) := by
  by_cases ha : isAbsent av <;>
    simp [get_invoice_field, pyContains, pyIndex, dictLookup, ha]

theorem sf_gif_default (bv : PyVal) :
    safe_float_conversion (if isAbsent bv then .vInt 0 else bv) 0 =
      safe_float_conversion bv 0 := by
  by_cases hb : isAbsent bv
  · rw [if_pos hb, sf_absent hb]
    rfl
  · rw [if_neg hb]

theorem si_gif_default (av : PyVal) :
    safe_int_conversion (if isAbsent av then .vInt 0 else av) 0 =
      safe_int_conversion av 0 := by
  by_cases ha : isAbsent av
  · rw [if_pos ha, si_absent ha]
    rfl
  · rw [if_neg ha]

/-- One invoice record holding only a balance and an age: the loop body
    resolves the two fields (an absent value falling back to `0`, which the
    conversions also map every absent value to) and produces the interest
    row with empty text fields. -/
theorem processInvoice_pair (bv av : PyVal) (r : ℚ) :
    processInvoice r (.vDict [("Balance Due", bv), ("Age", av)]) =
      .ok ([.str "", .str "", .str "", .str "",
            .num (((safe_float_conversion bv 0 : ℚ) : ℝ) *
              (Real.rpow (1 + (r : ℝ) / 100)
                (((max (safe_int_conversion av 0) 0 : ℤ) : ℝ) / 30) - 1)),
            .num (((safe_float_conversion bv 0 : ℚ) : ℝ) +
              ((safe_float_conversion bv 0 : ℚ) : ℝ) *
              (Real.rpow (1 + (r : ℝ) / 100)
                (((max (safe_int_conversion av 0) 0 : ℤ) : ℝ) / 30) - 1)),
            .str "", .str (toString (max (safe_int_conversion av 0) 0)), .str "",
            .num ((safe_float_conversion bv 0 : ℚ) : ℝ)],
           safe_float_conversion bv 0,
           ((safe_float_conversion bv 0 : ℚ) : ℝ) *
             (Real.rpow (1 + (r : ℝ) / 100)
               (((max (safe_int_conversion av 0) 0 : ℤ) : ℝ) / 30) - 1),
           ((safe_float_conversion bv 0 : ℚ) : ℝ) +
             ((safe_float_conversion bv 0 : ℚ) : ℝ) *
             (Real.rpow (1 + (r : ℝ) / 100)
               (((max (safe_int_conversion av 0) 0 : ℤ) : ℝ) / 30) - 1)) := by
  have hb := gif_pair_balance bv av
  have ha := gif_pair_age bv av
  simp only [processInvoice, hb, ha, sf_gif_default, si_gif_default]
  simp [get_invoice_field, pyContains, pyIndex, dictLookup, pyStr]

/-- Summary totals of a run over one balance/age record and no payments. -/
theorem single_invoice_summary (bv av : PyVal) (r : ℚ) (now : String) :
    (prepare_sheet_data (.vList [.vDict [("Balance Due", bv), ("Age", av)]])
        (.vList []) r now).2.error = none ∧
    (prepare_sheet_data (.vList [.vDict [("Balance Due", bv), ("Age", av)]])
        (.vList []) r now).2.total_interest =
      ((safe_float_conversion bv 0 : ℚ) : ℝ) *
        (Real.rpow (1 + (r : ℝ) / 100)
          (((max (safe_int_conversion av 0) 0 : ℤ) : ℝ) / 30) - 1) ∧
    (prepare_sheet_data (.vList [.vDict [("Balance Due", bv), ("Age", av)]])
        (.vList []) r now).2.total_balance_plus_interest =
      ((safe_float_conversion bv 0 : ℚ) : ℝ) +
      ((safe_float_conversion bv 0 : ℚ) : ℝ) *
        (Real.rpow (1 + (r : ℝ) / 100)
          (((max (safe_int_conversion av 0) 0 : ℤ) : ℝ) / 30) - 1) := by
  have hpi := processInvoice_pair bv av r
  refine ⟨?_, ?_, ?_⟩ <;>
    simp [prepare_sheet_data, prepare_core, toPyList, sumPaymentField, countStatuses,
      processInvoices, processPayments, hpi, get_invoice_field, pyContains, pyIndex,
      dictLookup]

/-- C1: the per-record interest is
    `balance_due * ((1 + monthly_rate/100) ^ (age_days/30) - 1)` with the
    age integer-coerced and floored at zero, and the total balance is
    `balance_due + interest`; in particular balance 1000, age 30 and rate
    1.5 give interest 15 and total balance 1015, and any negative age gives
    zero interest and a total balance equal to the balance due. -/
theorem C1_interest_formula (bv av : PyVal) (a : ℤ) (r : ℚ) (now : String) (ha : a < 0) :
    ((prepare_sheet_data (.vList [.vDict [("Balance Due", bv), ("Age", av)]])
        (.vList []) r now).2.total_interest =
      ((safe_float_conversion bv 0 : ℚ) : ℝ) *
        (Real.rpow (1 + (r : ℝ) / 100)
          (((max (safe_int_conversion av 0) 0 : ℤ) : ℝ) / 30) - 1)) ∧
    ((prepare_sheet_data (.vList [.vDict [("Balance Due", bv), ("Age", av)]])
        (.vList []) r now).2.total_balance_plus_interest =
      ((safe_float_conversion bv 0 : ℚ) : ℝ) +
      (prepare_sheet_data (.vList [.vDict [("Balance Due", bv), ("Age", av)]])
        (.vList []) r now).2.total_interest) ∧
    ((prepare_sheet_data (.vList [.vDict [("Balance Due", .vFloat 1000), ("Age", .vInt 30)]])
        (.vList []) (3 / 2) now).2.total_interest = 15) ∧
    ((prepare_sheet_data (.vList [.vDict [("Balance Due", .vFloat 1000), ("Age", .vInt 30)]])
        (.vList []) (3 / 2) now).2.total_balance_plus_interest = 1015) ∧
    ((prepare_sheet_data (.vList [.vDict [("Balance Due", bv), ("Age", .vInt a)]])
        (.vList []) r now).2.total_interest = 0) ∧
    ((prepare_sheet_data (.vList [.vDict [("Balance Due", bv), ("Age", .vInt a)]])
        (.vList []) r now).2.total_balance_plus_interest =
      ((safe_float_conversion bv 0 : ℚ) : ℝ)) := by
  obtain ⟨-, hti, htb⟩ := single_invoice_summary bv av r now
  obtain ⟨-, hti30, htb30⟩ := single_invoice_summary (.vFloat 1000) (.vInt 30) (3 / 2) now
  obtain ⟨-, htia, htba⟩ := single_invoice_summary bv (.vInt a) r now
  have hexp30 : ((max (safe_int_conversion (.vInt 30) 0) 0 : ℤ) : ℝ) / 30 = 1 := by
    norm_num [safe_int_conversion]
  have hexpa : ((max (safe_int_conversion (.vInt a) 0) 0 : ℤ) : ℝ) / 30 = 0 := by
    have hm : max (safe_int_conversion (.vInt a) 0) 0 = 0 := by
      simp only [safe_int_conversion]
      exact max_eq_right ha.le
    rw [hm]
    norm_num
  have hzero : ((safe_float_conversion bv 0 : ℚ) : ℝ) *
      (Real.rpow (1 + (r : ℝ) / 100)
        (((max (safe_int_conversion (PyVal.vInt a) 0) 0 : ℤ) : ℝ) / 30) - 1) = 0 := by
    rw [hexpa]
    have h0 : Real.rpow (1 + (r : ℝ) / 100) 0 = 1 := Real.rpow_zero _
    rw [h0]
    ring
  refine ⟨hti, ?_, ?_, ?_, ?_, ?_⟩
  · rw [htb, hti]
  · rw [hti30, hexp30]
    have h1 : Real.rpow (1 + ((3 / 2 : ℚ) : ℝ) / 100) 1 = 1 + ((3 / 2 : ℚ) : ℝ) / 100 :=
      Real.rpow_one _
    rw [h1]
    have : ((safe_float_conversion (PyVal.vFloat 1000) 0 : ℚ) : ℝ) = 1000 := by
      norm_num [safe_float_conversion]
    rw [this]
    push_cast
    norm_num
  · rw [htb30, hexp30]
    have h1 : Real.rpow (1 + ((3 / 2 : ℚ) : ℝ) / 100) 1 = 1 + ((3 / 2 : ℚ) : ℝ) / 100 :=
      Real.rpow_one _
    rw [h1]
    have : ((safe_float_conversion (PyVal.vFloat 1000) 0 : ℚ) : ℝ) = 1000 := by
      norm_num [safe_float_conversion]
    rw [this]
    push_cast
    norm_num
  · rw [htia, hzero]
  · rw [htba, hzero, add_zero]

/-- C1 witness: a record with balance 500 and age −10. -/
theorem C1_witness :
    (-10 : ℤ) < 0 ∧
    ((prepare_sheet_data (.vList [.vDict [("Balance Due", .vFloat 500), ("Age", .vInt (-10))]])
        (.vList []) (3 / 2) "T").2.total_interest = 0) ∧
    ((prepare_sheet_data (.vList [.vDict [("Balance Due", .vFloat 500), ("Age", .vInt (-10))]])
        (.vList []) (3 / 2) "T").2.total_balance_plus_interest =
      ((safe_float_conversion (.vFloat 500) 0 : ℚ) : ℝ)) :=
  ⟨by decide,
   (C1_interest_formula (.vFloat 500) (.vInt (-10)) (-10) (3 / 2) "T" (by decide)).2.2.2.2.1,
   (C1_interest_formula (.vFloat 500) (.vInt (-10)) (-10) (3 / 2) "T" (by decide)).2.2.2.2.2⟩

/-! ### Dual-key field resolution (C6) -/

/-- A head entry whose key none of the looked-up keys mention does not
    change field resolution. -/
theorem gif_head_key (hk : String) (v : PyVal) (rest : List (String × PyVal))
    (keys : List String) (d : PyVal) (hni : hk ∉ keys) :
    get_invoice_field (.vDict ((hk, v) :: rest)) keys d =
      get_invoice_field (.vDict rest) keys d := by
  induction keys with
  | nil => rfl
  | cons k ks ih =>
      have hkk : ¬ hk = k := fun h => hni (by simp [h])
      have hrest : hk ∉ ks := fun h => hni (List.mem_cons_of_mem _ h)
      simp [get_invoice_field, pyContains, pyIndex, dictLookup, hkk, ih hrest]

/-- Storing the balance under the space key or under the underscore key
    resolves identically, provided the record binds neither alias twice. -/
theorem gif_balance_alias (v : PyVal) (rest : List (String × PyVal))
    (h1 : dictLookup rest "Balance Due" = none)
    (h2 : dictLookup rest "Balance_Due" = none) :
    get_invoice_field (.vDict (("Balance Due", v) :: rest))
        ["Balance Due", "Balance_Due"] (.vInt 0) =
      get_invoice_field (.vDict (("Balance_Due", v) :: rest))
        ["Balance Due", "Balance_Due"] (.vInt 0) := by
  by_cases ha : isAbsent v <;>
    simp [get_invoice_field, pyContains, pyIndex, dictLookup, h1, h2, ha]

/-- C6: field resolution tries the space key, then the underscore key, then
    the default, with `None` and `""` treated as absent; consequently a
    record holding its balance under `"Balance Due"` and the same record
    holding it under `"Balance_Due"` process identically — same row, same
    interest, same total balance. -/
theorem C6_field_resolution :
    (∀ (es : List (String × PyVal)) (k₁ k₂ : String) (d : PyVal),
      get_invoice_field (.vDict es) [k₁, k₂] d =
        .ok (((lookupUsable es k₁).orElse (fun _ => lookupUsable es k₂)).getD d)) ∧
    (∀ (v : PyVal) (rest : List (String × PyVal)) (r : ℚ),
      dictLookup rest "Balance Due" = none →
      dictLookup rest "Balance_Due" = none →
      processInvoice r (.vDict (("Balance Due", v) :: rest)) =
        processInvoice r (.vDict (("Balance_Due", v) :: rest))) := by
  constructor
  · intro es k₁ k₂ d
    rcases hl1 : dictLookup es k₁ with _ | v₁
    · rcases hl2 : dictLookup es k₂ with _ | v₂
      · simp [get_invoice_field, pyContains, pyIndex, lookupUsable, hl1, hl2, Option.orElse]
      · by_cases ha : isAbsent v₂ <;>
          simp [get_invoice_field, pyContains, pyIndex, lookupUsable, hl1, hl2, ha,
            Option.orElse]
    · by_cases ha : isAbsent v₁
      · rcases hl2 : dictLookup es k₂ with _ | v₂
        · simp [get_invoice_field, pyContains, pyIndex, lookupUsable, hl1, hl2, ha,
            Option.orElse]
        · by_cases ha2 : isAbsent v₂ <;>
            simp [get_invoice_field, pyContains, pyIndex, lookupUsable, hl1, hl2, ha, ha2,
              Option.orElse]
      · simp [get_invoice_field, pyContains, pyIndex, lookupUsable, hl1, ha, Option.orElse]
  · intro v rest r h1 h2
    simp only [processInvoice, gif_balance_alias v rest h1 h2,
      gif_head_key "Balance Due" v rest ["Age", "Age"] (.vInt 0) (by decide),
      gif_head_key "Balance_Due" v rest ["Age", "Age"] (.vInt 0) (by decide),
      gif_head_key "Balance Due" v rest ["Date Formatted", "Date_Formatted"] (.vStr "")
        (by decide),
      gif_head_key "Balance_Due" v rest ["Date Formatted", "Date_Formatted"] (.vStr "")
        (by decide),
      gif_head_key "Balance Due" v rest ["Reference Number", "Reference_Number"] (.vStr "")
        (by decide),
      gif_head_key "Balance_Due" v rest ["Reference Number", "Reference_Number"] (.vStr "")
        (by decide),
      gif_head_key "Balance Due" v rest ["Total Formatted", "Total_Formatted"] (.vStr "")
        (by decide),
      gif_head_key "Balance_Due" v rest ["Total Formatted", "Total_Formatted"] (.vStr "")
        (by decide),
      gif_head_key "Balance Due" v rest ["Balance Formatted", "Balance_Formatted"] (.vStr "")
        (by decide),
      gif_head_key "Balance_Due" v rest ["Balance Formatted", "Balance_Formatted"] (.vStr "")
        (by decide),
      gif_head_key "Balance Due" v rest ["Status", "Status"] (.vStr "") (by decide),
      gif_head_key "Balance_Due" v rest ["Status", "Status"] (.vStr "") (by decide),
      gif_head_key "Balance Due" v rest ["Invoice ID", "Invoice_ID"] (.vStr "") (by decide),
      gif_head_key "Balance_Due" v rest ["Invoice ID", "Invoice_ID"] (.vStr "") (by decide)]

/-- C6 witness: balance 250 under either key alias, with an age field. -/
theorem C6_witness :
    dictLookup [("Age", PyVal.vInt 60)] "Balance Due" = none ∧
    dictLookup [("Age", PyVal.vInt 60)] "Balance_Due" = none ∧
    processInvoice 2 (.vDict [("Balance Due", .vFloat 250), ("Age", .vInt 60)]) =
      processInvoice 2 (.vDict [("Balance_Due", .vFloat 250), ("Age", .vInt 60)]) :=
  ⟨rfl, rfl,
   C6_field_resolution.2 (.vFloat 250) [("Age", .vInt 60)] 2 rfl rfl⟩

/-- C7: on every successful preparation the status breakdown is exact: its
    keys are the distinct resolved labels in first-seen order, each label
    maps to its occurrence count among the resolved statuses (with default
    label `"Unknown"` for absent or blank statuses baked into the
    resolution), and the counts sum to `invoices_count`. -/
theorem C7_status_counts (i p : PyVal) (r : ℚ) (now : String) (st : String)
    (h : (prepare_sheet_data i p r now).2.error = none) :
    ∃ ss, resolveStatuses (toPyList i) = .ok ss ∧
      (prepare_sheet_data i p r now).2.status_counts.map Prod.fst = firstSeen ss ∧
      ((prepare_sheet_data i p r now).2.status_counts.lookup st =
        if st ∈ ss then some (ss.count st) else none) ∧
      ((prepare_sheet_data i p r now).2.status_counts.map Prod.snd).sum =
        (toPyList i).length ∧
      (prepare_sheet_data i p r now).2.invoices_count = some (toPyList i).length := by
  have hcore := core_ok_of_error_none h
  obtain ⟨paid, unused, sc, invRows, tbd, ti, tt, payRows, h1, h2, h3, h4, h5, hrows, hs⟩ :=
    prepare_core_ok_inv hcore
  obtain ⟨ss, hss, hsc⟩ := countStatuses_ok h3
  have hlen := resolveStatuses_length hss
  refine ⟨ss, hss, ?_, ?_, ?_, ?_⟩
  · rw [hs]
    show sc.map Prod.fst = firstSeen ss
    rw [hsc, tally_keys]
    rfl
  · rw [hs]
    show sc.lookup st = if st ∈ ss then some (ss.count st) else none
    rw [hsc, tally_lookup]
    simp
  · rw [hs]
    show (sc.map Prod.snd).sum = (toPyList i).length
    rw [hsc, tally_sum, hlen]
    simp
  · rw [hs]

/-- C7 witness: statuses Paid, absent, Paid — counts {Paid: 2, Unknown: 1}. -/
theorem C7_witness :
    (prepare_sheet_data (.vList [.vDict [("Status", .vStr "Paid")], .vDict [],
        .vDict [("Status", .vStr "Paid")]]) (.vList []) 1 "T").2.error = none ∧
    (∃ ss, resolveStatuses (toPyList (.vList [.vDict [("Status", .vStr "Paid")], .vDict [],
        .vDict [("Status", .vStr "Paid")]])) = .ok ss ∧
      (prepare_sheet_data (.vList [.vDict [("Status", .vStr "Paid")], .vDict [],
        .vDict [("Status", .vStr "Paid")]]) (.vList []) 1 "T").2.status_counts.map Prod.fst =
        firstSeen ss ∧
      ((prepare_sheet_data (.vList [.vDict [("Status", .vStr "Paid")], .vDict [],
        .vDict [("Status", .vStr "Paid")]]) (.vList []) 1 "T").2.status_counts.lookup "Paid" =
        if "Paid" ∈ ss then some (ss.count "Paid") else none) ∧
      ((prepare_sheet_data (.vList [.vDict [("Status", .vStr "Paid")], .vDict [],
        .vDict [("Status", .vStr "Paid")]]) (.vList []) 1 "T").2.status_counts.map
          Prod.snd).sum =
        (toPyList (.vList [.vDict [("Status", .vStr "Paid")], .vDict [],
          .vDict [("Status", .vStr "Paid")]])).length ∧
      (prepare_sheet_data (.vList [.vDict [("Status", .vStr "Paid")], .vDict [],
        .vDict [("Status", .vStr "Paid")]]) (.vList []) 1 "T").2.invoices_count =
        some (toPyList (.vList [.vDict [("Status", .vStr "Paid")], .vDict [],
          .vDict [("Status", .vStr "Paid")]])).length) :=
  ⟨rfl,
   C7_status_counts (.vList [.vDict [("Status", .vStr "Paid")], .vDict [],
     .vDict [("Status", .vStr "Paid")]]) (.vList []) 1 "T" "Paid" rfl⟩

/-- C10: for an invoice whose status is absent, `None` or empty, the emitted
    invoice row renders the Status cell as the empty string while the same
    invoice is tallied under `"Unknown"` in the status breakdown — row
    rendering and status aggregation use different defaults for the same
    resolved field. -/
theorem C10_status_defaults (entries : List (String × PyVal)) (r : ℚ) (now : String)
    (hstat : get_invoice_field (.vDict entries) ["Status", "Status"] .vNone = .ok .vNone) :
    (prepare_sheet_data (.vList [.vDict entries]) (.vList []) r now).2.status_counts =
      [("Unknown", 1)] ∧
    (prepare_sheet_data (.vList [.vDict entries]) (.vList []) r now).2.error = none ∧
    ∃ row, (prepare_sheet_data (.vList [.vDict entries]) (.vList []) r now).1.get? 8 =
        some row ∧ row.get? 6 = some (.str "") := by
  have hsU := gif_fallthrough hstat (.vStr "Unknown")
  have hsE := gif_fallthrough hstat (.vStr "")
  obtain ⟨bv, hbv⟩ := gif_dict_ok ["Balance Due", "Balance_Due"] entries (.vInt 0)
  obtain ⟨av, hav⟩ := gif_dict_ok ["Age", "Age"] entries (.vInt 0)
  obtain ⟨dv, hdv⟩ := gif_dict_ok ["Date Formatted", "Date_Formatted"] entries (.vStr "")
  obtain ⟨rv2, hrv⟩ := gif_dict_ok ["Reference Number", "Reference_Number"] entries (.vStr "")
  obtain ⟨tv, htv⟩ := gif_dict_ok ["Total Formatted", "Total_Formatted"] entries (.vStr "")
  obtain ⟨blv, hblv⟩ := gif_dict_ok ["Balance Formatted", "Balance_Formatted"] entries (.vStr "")
  obtain ⟨idv, hidv⟩ := gif_dict_ok ["Invoice ID", "Invoice_ID"] entries (.vStr "")
  have hres : resolveLabel (PyVal.vStr "Unknown") = "Unknown" := by decide
  have hcs : countStatuses [PyVal.vDict entries] [] = .ok [("Unknown", 1)] := by
    simp [countStatuses, hsU, hres, bumpStatus]
  have hpi : processInvoice r (.vDict entries) =
      .ok ([.str (pyStr dv), .str (pyStr rv2), .str (pyStr tv), .str (pyStr blv),
            .num (((safe_float_conversion bv 0 : ℚ) : ℝ) *
              (Real.rpow (1 + (r : ℝ) / 100)
                (((max (safe_int_conversion av 0) 0 : ℤ) : ℝ) / 30) - 1)),
            .num (((safe_float_conversion bv 0 : ℚ) : ℝ) +
              ((safe_float_conversion bv 0 : ℚ) : ℝ) *
              (Real.rpow (1 + (r : ℝ) / 100)
                (((max (safe_int_conversion av 0) 0 : ℤ) : ℝ) / 30) - 1)),
            .str (pyStr (.vStr "")), .str (toString (max (safe_int_conversion av 0) 0)),
            .str (pyStr idv), .num ((safe_float_conversion bv 0 : ℚ) : ℝ)],
           safe_float_conversion bv 0,
           ((safe_float_conversion bv 0 : ℚ) : ℝ) *
             (Real.rpow (1 + (r : ℝ) / 100)
               (((max (safe_int_conversion av 0) 0 : ℤ) : ℝ) / 30) - 1),
           ((safe_float_conversion bv 0 : ℚ) : ℝ) +
             ((safe_float_conversion bv 0 : ℚ) : ℝ) *
             (Real.rpow (1 + (r : ℝ) / 100)
               (((max (safe_int_conversion av 0) 0 : ℤ) : ℝ) / 30) - 1)) := by
    simp only [processInvoice, hbv, hav, hdv, hrv, htv, hblv, hsE, hidv]
  have herr : (prepare_sheet_data (.vList [.vDict entries]) (.vList []) r now).2.error =
      none := by
    simp [prepare_sheet_data, prepare_core, toPyList, sumPaymentField, processPayments,
      hcs, hpi, processInvoices]
  have hcore := core_ok_of_error_none herr
  obtain ⟨paid, unused, sc, invRows, tbd, ti, tt, payRows, h1, h2, h3, h4, h5, hrows, hs⟩ :=
    prepare_core_ok_inv hcore
  have htl : toPyList (PyVal.vList [PyVal.vDict entries]) = [PyVal.vDict entries] := rfl
  rw [htl] at h3 h4
  rw [hcs] at h3
  have hsc : sc = [("Unknown", 1)] := (Except.ok.inj h3).symm
  have hpis : processInvoices r [PyVal.vDict entries] =
      .ok ([([.str (pyStr dv), .str (pyStr rv2), .str (pyStr tv), .str (pyStr blv),
            .num (((safe_float_conversion bv 0 : ℚ) : ℝ) *
              (Real.rpow (1 + (r : ℝ) / 100)
                (((max (safe_int_conversion av 0) 0 : ℤ) : ℝ) / 30) - 1)),
            .num (((safe_float_conversion bv 0 : ℚ) : ℝ) +
              ((safe_float_conversion bv 0 : ℚ) : ℝ) *
              (Real.rpow (1 + (r : ℝ) / 100)
                (((max (safe_int_conversion av 0) 0 : ℤ) : ℝ) / 30) - 1)),
            .str (pyStr (.vStr "")), .str (toString (max (safe_int_conversion av 0) 0)),
            .str (pyStr idv), .num ((safe_float_conversion bv 0 : ℚ) : ℝ)] : Row)],
           safe_float_conversion bv 0 + 0,
           ((safe_float_conversion bv 0 : ℚ) : ℝ) *
             (Real.rpow (1 + (r : ℝ) / 100)
               (((max (safe_int_conversion av 0) 0 : ℤ) : ℝ) / 30) - 1) + 0,
           (((safe_float_conversion bv 0 : ℚ) : ℝ) +
             ((safe_float_conversion bv 0 : ℚ) : ℝ) *
             (Real.rpow (1 + (r : ℝ) / 100)
               (((max (safe_int_conversion av 0) 0 : ℤ) : ℝ) / 30) - 1)) + 0) := by
    simp only [processInvoices, hpi]
  rw [hpis] at h4
  obtain ⟨hrowseq, -, -, -⟩ := Prod.mk.injEq .. ▸ (Except.ok.inj h4)
  refine ⟨?_, herr, ?_⟩
  · rw [hs]
    show sc = [("Unknown", 1)]
    exact hsc
  · refine ⟨[.str (pyStr dv), .str (pyStr rv2), .str (pyStr tv), .str (pyStr blv),
      .num (((safe_float_conversion bv 0 : ℚ) : ℝ) *
        (Real.rpow (1 + (r : ℝ) / 100)
          (((max (safe_int_conversion av 0) 0 : ℤ) : ℝ) / 30) - 1)),
      .num (((safe_float_conversion bv 0 : ℚ) : ℝ) +
        ((safe_float_conversion bv 0 : ℚ) : ℝ) *
        (Real.rpow (1 + (r : ℝ) / 100)
          (((max (safe_int_conversion av 0) 0 : ℤ) : ℝ) / 30) - 1)),
      .str (pyStr (.vStr "")), .str (toString (max (safe_int_conversion av 0) 0)),
      .str (pyStr idv), .num ((safe_float_conversion bv 0 : ℚ) : ℝ)], ?_, ?_⟩
    · rw [hrows, ← hrowseq]
      simp [List.get?]
    · simp [pyStr, List.get?]

/-- C10 witness: a record with a balance but no status key at all. -/
theorem C10_witness :
    get_invoice_field (.vDict [("Balance Due", PyVal.vFloat 100)]) ["Status", "Status"]
      .vNone = .ok .vNone ∧
    ((prepare_sheet_data (.vList [.vDict [("Balance Due", PyVal.vFloat 100)]])
        (.vList []) 1 "T").2.status_counts = [("Unknown", 1)] ∧
     (prepare_sheet_data (.vList [.vDict [("Balance Due", PyVal.vFloat 100)]])
        (.vList []) 1 "T").2.error = none ∧
     ∃ row, (prepare_sheet_data (.vList [.vDict [("Balance Due", PyVal.vFloat 100)]])
        (.vList []) 1 "T").1.get? 8 = some row ∧ row.get? 6 = some (.str "")) :=
  ⟨rfl, C10_status_defaults [("Balance Due", PyVal.vFloat 100)] 1 "T" rfl⟩

/-- Every successfully produced invoice row has exactly the ten cells in
    order: four text fields, the two raw numerics, status and age as text,
    the id as text, and the raw numeric balance due. -/
theorem processInvoice_row_shape {r : ℚ} {inv : PyVal} {row : Row} {bd0 : ℚ} {iv0 tb0 : ℝ}
    (h : processInvoice r inv = .ok (row, bd0, iv0, tb0)) :
    ∃ d rf t b st ag id, ∃ iv tb bd : ℝ,
      row = [.str d, .str rf, .str t, .str b, .num iv, .num tb, .str st, .str ag,
             .str id, .num bd] := by
  obtain ⟨bv, av, dv, rv, tv, blv, sv, idv, -, -, -, -, -, -, -, -, -, -, -, hrow⟩ :=
    processInvoice_ok_inv h
  exact ⟨pyStr dv, pyStr rv, pyStr tv, pyStr blv, pyStr sv,
    toString (max (safe_int_conversion av 0) 0), pyStr idv, iv0, tb0,
    ((bd0 : ℚ) : ℝ), hrow⟩

/-- C2: on every successful run the emitted rows are exactly the fixed
    sequence: the six header rows, the invoices section title and column
    header, one ten-cell row per invoice in input order (text fields as
    text, interest and total balance raw numeric, age as text, balance due
    raw numeric), blank/separator/blank, the payments section title and
    header with one three-cell row per payment in input order, another
    blank/separator/blank, and the financial summary block with the six
    labelled totals in fixed order, the status breakdown rows and the three
    record-count lines, closed by a separator. -/
theorem C2_row_structure (i p : PyVal) (r : ℚ) (now : String)
    (h : (prepare_sheet_data i p r now).2.error = none) :
    ∃ (invRows payRows : List Row) (sc : List (String × ℕ)) (tbd paid unused : ℚ),
    ∃ ti tt : ℝ,
      processInvoices r (toPyList i) = .ok (invRows, tbd, ti, tt) ∧
      processPayments (toPyList p) = .ok payRows ∧
      countStatuses (toPyList i) [] = .ok sc ∧
      sumPaymentField ["Paid Amount", "Paid_Amount"] (toPyList p) = .ok paid ∧
      sumPaymentField ["Unused Amount", "Unused_Amount"] (toPyList p) = .ok unused ∧
      invRows.length = (toPyList i).length ∧
      payRows.length = (toPyList p).length ∧
      (∀ n (h1 : n < (toPyList i).length) (h2 : n < invRows.length),
        ∃ bd iv tb,
          processInvoice r ((toPyList i).get ⟨n, h1⟩) =
            .ok (invRows.get ⟨n, h2⟩, bd, iv, tb)) ∧
      (∀ row ∈ invRows, ∃ d rf t b st ag id, ∃ iv tb bd : ℝ,
        row = [.str d, .str rf, .str t, .str b, .num iv, .num tb, .str st, .str ag,
               .str id, .num bd]) ∧
      (∀ n (h1 : n < (toPyList p).length) (h2 : n < payRows.length),
        ∃ pid pav uav,
          get_invoice_field ((toPyList p).get ⟨n, h1⟩) ["Payment ID", "Payment_ID"]
            (.vStr "") = .ok pid ∧
          get_invoice_field ((toPyList p).get ⟨n, h1⟩) ["Paid Amount", "Paid_Amount"]
            (.vInt 0) = .ok pav ∧
          get_invoice_field ((toPyList p).get ⟨n, h1⟩) ["Unused Amount", "Unused_Amount"]
            (.vInt 0) = .ok uav ∧
          payRows.get ⟨n, h2⟩ = [.str (pyStr pid),
            .num ((safe_float_conversion pav 0 : ℚ) : ℝ),
            .num ((safe_float_conversion uav 0 : ℚ) : ℝ)]) ∧
      (prepare_sheet_data i p r now).2.status_counts = sc ∧
      (prepare_sheet_data i p r now).1 =
        ([[.str "STATEMENT OF ACCOUNTS"],
          [.str ("Generated on: " ++ now)],
          [.str ("Interest rate (per month): " ++ floatRepr r ++ "%")],
          [.str ""],
          [.str sep80],
          [.str ""],
          [.str "INVOICES SECTION"],
          [.str "Date", .str "Reference", .str "Total", .str "Balance", .str "Interest",
           .str "Total Balance", .str "Status", .str "Age", .str "Invoice ID",
           .str "Balance Due"]]
         ++ invRows
         ++ [[.str ""], [.str sep80], [.str ""],
             [.str "PAYMENTS SECTION"],
             [.str "Payment ID", .str "Paid Amount", .str "Unused Amount"]]
         ++ payRows
         ++ [[.str ""], [.str sep80], [.str ""],
             [.str "FINANCIAL SUMMARY"], [.str ""],
             [.str "Total Balance Due:", .num (tbd : ℝ)],
             [.str "Total Interest:", .num ti],
             [.str "Total (Balance + Interest):", .num tt],
             [.str "Total Paid Amount:", .num (paid : ℝ)],
             [.str "Total Unused Amount:", .num (unused : ℝ)],
             [.str "Net Outstanding (Balance - Paid + Unused):",
              .num ((tbd - (paid - unused) : ℚ) : ℝ)],
             [.str ""],
             [.str "INVOICE STATUS BREAKDOWN:"]]
         ++ sc.map (fun c => [.str (c.1 ++ ":"), .int (c.2 : ℤ)])
         ++ [[.str ""],
             [.str ("Total Invoices: " ++ toString (toPyList i).length)],
             [.str ("Total Payments: " ++ toString (toPyList p).length)],
             [.str ("Total Records: " ++
                toString ((toPyList i).length + (toPyList p).length))],
             [.str ""],
             [.str sep80]]) := by
  have hcore := core_ok_of_error_none h
  obtain ⟨paid, unused, sc, invRows, tbd, ti, tt, payRows, h1, h2, h3, h4, h5, hrows, hs⟩ :=
    prepare_core_ok_inv hcore
  refine ⟨invRows, payRows, sc, tbd, paid, unused, ti, tt, h4, h5, h3, h1, h2,
    processInvoices_length h4, processPayments_length h5,
    processInvoices_get h4, ?_, processPayments_get h5, ?_, hrows⟩
  · intro row hrow
    obtain ⟨⟨nv, hnlt⟩, hget⟩ := List.mem_iff_get.mp hrow
    have hn1 : nv < (toPyList i).length := by
      rw [← processInvoices_length h4]
      exact hnlt
    obtain ⟨bd, iv, tb, hpi⟩ := processInvoices_get h4 nv hn1 hnlt
    rw [hget] at hpi
    exact processInvoice_row_shape hpi
  · rw [hs]

/-- C2 witness: one invoice and one payment. -/
theorem C2_witness :
    (prepare_sheet_data (.vList [.vDict [("Balance Due", .vFloat 100), ("Age", .vInt 30)]])
        (.vList [.vDict [("Payment ID", .vStr "P1"), ("Paid Amount", .vFloat 40)]])
        1 "T").2.error = none ∧
    (∃ (invRows payRows : List Row) (sc : List (String × ℕ)) (tbd paid unused : ℚ),
     ∃ ti tt : ℝ,
      processInvoices 1
          (toPyList (.vList [.vDict [("Balance Due", .vFloat 100), ("Age", .vInt 30)]])) =
        .ok (invRows, tbd, ti, tt) ∧
      processPayments
          (toPyList (.vList [.vDict [("Payment ID", .vStr "P1"),
            ("Paid Amount", .vFloat 40)]])) = .ok payRows ∧
      countStatuses
          (toPyList (.vList [.vDict [("Balance Due", .vFloat 100), ("Age", .vInt 30)]])) [] =
        .ok sc ∧
      sumPaymentField ["Paid Amount", "Paid_Amount"]
          (toPyList (.vList [.vDict [("Payment ID", .vStr "P1"),
            ("Paid Amount", .vFloat 40)]])) = .ok paid ∧
      sumPaymentField ["Unused Amount", "Unused_Amount"]
          (toPyList (.vList [.vDict [("Payment ID", .vStr "P1"),
            ("Paid Amount", .vFloat 40)]])) = .ok unused ∧
      invRows.length =
        (toPyList (.vList [.vDict [("Balance Due", .vFloat 100), ("Age", .vInt 30)]])).length ∧
      payRows.length =
        (toPyList (.vList [.vDict [("Payment ID", .vStr "P1"),
          ("Paid Amount", .vFloat 40)]])).length ∧
      (∀ n (h1 : n < (toPyList (.vList [.vDict [("Balance Due", .vFloat 100),
            ("Age", .vInt 30)]])).length) (h2 : n < invRows.length),
        ∃ bd iv tb,
          processInvoice 1
              ((toPyList (.vList [.vDict [("Balance Due", .vFloat 100),
                ("Age", .vInt 30)]])).get ⟨n, h1⟩) =
            .ok (invRows.get ⟨n, h2⟩, bd, iv, tb)) ∧
      (∀ row ∈ invRows, ∃ d rf t b st ag id, ∃ iv tb bd : ℝ,
        row = [.str d, .str rf, .str t, .str b, .num iv, .num tb, .str st, .str ag,
               .str id, .num bd]) ∧
      (∀ n (h1 : n < (toPyList (.vList [.vDict [("Payment ID", .vStr "P1"),
            ("Paid Amount", .vFloat 40)]])).length) (h2 : n < payRows.length),
        ∃ pid pav uav,
          get_invoice_field ((toPyList (.vList [.vDict [("Payment ID", .vStr "P1"),
              ("Paid Amount", .vFloat 40)]])).get ⟨n, h1⟩) ["Payment ID", "Payment_ID"]
            (.vStr "") = .ok pid ∧
          get_invoice_field ((toPyList (.vList [.vDict [("Payment ID", .vStr "P1"),
              ("Paid Amount", .vFloat 40)]])).get ⟨n, h1⟩) ["Paid Amount", "Paid_Amount"]
            (.vInt 0) = .ok pav ∧
          get_invoice_field ((toPyList (.vList [.vDict [("Payment ID", .vStr "P1"),
              ("Paid Amount", .vFloat 40)]])).get ⟨n, h1⟩) ["Unused Amount", "Unused_Amount"]
            (.vInt 0) = .ok uav ∧
          payRows.get ⟨n, h2⟩ = [.str (pyStr pid),
            .num ((safe_float_conversion pav 0 : ℚ) : ℝ),
            .num ((safe_float_conversion uav 0 : ℚ) : ℝ)]) ∧
      (prepare_sheet_data (.vList [.vDict [("Balance Due", .vFloat 100), ("Age", .vInt 30)]])
          (.vList [.vDict [("Payment ID", .vStr "P1"), ("Paid Amount", .vFloat 40)]])
          1 "T").2.status_counts = sc ∧
      (prepare_sheet_data (.vList [.vDict [("Balance Due", .vFloat 100), ("Age", .vInt 30)]])
          (.vList [.vDict [("Payment ID", .vStr "P1"), ("Paid Amount", .vFloat 40)]])
          1 "T").1 =
        ([[.str "STATEMENT OF ACCOUNTS"],
          [.str ("Generated on: " ++ "T")],
          [.str ("Interest rate (per month): " ++ floatRepr 1 ++ "%")],
          [.str ""],
          [.str sep80],
          [.str ""],
          [.str "INVOICES SECTION"],
          [.str "Date", .str "Reference", .str "Total", .str "Balance", .str "Interest",
           .str "Total Balance", .str "Status", .str "Age", .str "Invoice ID",
           .str "Balance Due"]]
         ++ invRows
         ++ [[.str ""], [.str sep80], [.str ""],
             [.str "PAYMENTS SECTION"],
             [.str "Payment ID", .str "Paid Amount", .str "Unused Amount"]]
         ++ payRows
         ++ [[.str ""], [.str sep80], [.str ""],
             [.str "FINANCIAL SUMMARY"], [.str ""],
             [.str "Total Balance Due:", .num (tbd : ℝ)],
             [.str "Total Interest:", .num ti],
             [.str "Total (Balance + Interest):", .num tt],
             [.str "Total Paid Amount:", .num (paid : ℝ)],
             [.str "Total Unused Amount:", .num (unused : ℝ)],
             [.str "Net Outstanding (Balance - Paid + Unused):",
              .num ((tbd - (paid - unused) : ℚ) : ℝ)],
             [.str ""],
             [.str "INVOICE STATUS BREAKDOWN:"]]
         ++ sc.map (fun c => [.str (c.1 ++ ":"), .int (c.2 : ℤ)])
         ++ [[.str ""],
             [.str ("Total Invoices: " ++ toString (toPyList (.vList [.vDict
                [("Balance Due", .vFloat 100), ("Age", .vInt 30)]])).length)],
             [.str ("Total Payments: " ++ toString (toPyList (.vList [.vDict
                [("Payment ID", .vStr "P1"), ("Paid Amount", .vFloat 40)]])).length)],
             [.str ("Total Records: " ++
                toString ((toPyList (.vList [.vDict [("Balance Due", .vFloat 100),
                    ("Age", .vInt 30)]])).length +
                  (toPyList (.vList [.vDict [("Payment ID", .vStr "P1"),
                    ("Paid Amount", .vFloat 40)]])).length))],
             [.str ""],
             [.str sep80]])) :=
  ⟨rfl,
   C2_row_structure (.vList [.vDict [("Balance Due", .vFloat 100), ("Age", .vInt 30)]])
     (.vList [.vDict [("Payment ID", .vStr "P1"), ("Paid Amount", .vFloat 40)]]) 1 "T" rfl⟩

end StatementApp
